import Mathlib

/-!
Verification of the freezer-backend household-inventory service.

This file gives a shallow embedding of the household / location / item
CRUD layer (`crud.py`, `middleware/auth.py`) and of the AI shopping-list
ingestion pipeline (`ai_shopping_parser.py`, the `/api/ingest-shopping`
handler in `main.py`), together with theorems settling the specification
claims about them.

Conventions of the embedding:
* Python floats are modelled as exact rationals (`ℚ`); the only numeric
  constants the claims touch (`0.6`, clamping into `[0,1]`, `int(c*100)`)
  are exact in both representations.
* `time.time()` values are modelled as integers (`ℤ`); only differences
  and comparisons of timestamps are ever used.
* SQLAlchemy rows become records, the session becomes an explicit `Db`
  value, and each `db.commit()` boundary of `create_household` is a
  separate state-producing function, so that the state committed between
  two commits is observable.
* The external Gemini collaborator is a parameter: `none` models a
  missing `GEMINI_API_KEY` (no model object), `some (.error _)` models an
  exception raised by the `generate_content` call, and `some (.ok items)`
  models a successful call whose JSON decoded to `items` (a malformed
  JSON body corresponds to `.ok []`, because `_parse_ai_response` returns
  the empty list rather than falling back).
-/

set_option maxRecDepth 100000

/-! ### Python string primitives used by the source -/

/-- Python whitespace for `str.strip` / regex `\s` (ASCII part; all
content handled by the claims is ASCII). -/
def pyIsSpace (c : Char) : Bool :=
  c = ' ' || c = '\t' || c = '\n' || c = '\r' || c = '\x0b' || c = '\x0c'

/-- `str.strip()` on a character list. -/
def pyStripList (l : List Char) : List Char :=
  ((l.dropWhile pyIsSpace).reverse.dropWhile pyIsSpace).reverse

/-- Python `str.strip()`. -/
def pyStrip (s : String) : String := ⟨pyStripList s.data⟩

/-- Python `str.lower()` (ASCII). -/
def pyLower (s : String) : String := ⟨s.data.map Char.toLower⟩

/-- Helper for `str.title()`: `prevCased` records whether the previous
character was a letter; a letter after a non-letter is uppercased, any
other letter is lowercased. -/
def pyTitleAux : Bool → List Char → List Char
  | _, [] => []
  | prevCased, c :: rest =>
    if c.isAlpha then
      (if prevCased then c.toLower else c.toUpper) :: pyTitleAux true rest
    else
      c :: pyTitleAux false rest

/-- Python `str.title()` (ASCII). -/
def pyTitle (s : String) : String := ⟨pyTitleAux false s.data⟩

/-- Is the first list a (case-sensitive) prefix of the second? -/
def chPrefix : List Char → List Char → Bool
  | [], _ => true
  | _ :: _, [] => false
  | a :: as, b :: bs => a = b && chPrefix as bs

/-- Is the first list a contiguous sublist of the second
(Python `needle in hay`)? -/
def chInfix : List Char → List Char → Bool
  | pat, [] => pat.isEmpty
  | pat, c :: rest => chPrefix pat (c :: rest) || chInfix pat rest

/-- Python `str.isdigit()` restricted to ASCII digits: nonempty and all
digits. -/
def pyIsDigitStr (l : List Char) : Bool :=
  !l.isEmpty && l.all Char.isDigit

/-- `str.replace(".", "")`. -/
def removeDots (l : List Char) : List Char := l.filter (fun c => c ≠ '.')

/-- Digits to a natural number. -/
def digitsToNat : List Char → Nat → Nat
  | [], acc => acc
  | c :: rest, acc => digitsToNat rest (acc * 10 + (c.toNat - '0'.toNat))

/-- Python `float(...)` on strings of the regex shape `\d+\.?\d*`
(the only shapes the fallback parser feeds it): the exact rational
`intpart.fracpart`, built with `mkRat` so it evaluates by reduction. -/
def pyFloat (s : String) : ℚ :=
  let ip := s.data.takeWhile (fun c => c ≠ '.')
  let rest := s.data.dropWhile (fun c => c ≠ '.')
  let fp := match rest with
    | [] => []
    | _ :: t => t
  mkRat (Int.ofNat (digitsToNat ip 0 * 10 ^ fp.length + digitsToNat fp 0))
    (10 ^ fp.length)

/-! ### A small backtracking regex engine

Enough of Python `re` (with `re.IGNORECASE`) for the two fixed patterns
of `_fallback_parse`: character classes, case-insensitive literals,
ordered alternation, greedy `*`/`+` over a character class, greedy `?`,
and numbered capture groups.  `matchAll` enumerates every way a pattern
can match a prefix of the input, in exactly Python's backtracking
priority order (greedy quantifiers longest first, alternatives left to
right), so the head of the list is the match Python's engine returns. -/

inductive Pat where
  | eps
  | cls (f : Char → Bool)
  | lit (cs : List Char)
  | seq (p q : Pat)
  | alt (p q : Pat)
  | star (f : Char → Bool)
  | plus (f : Char → Bool)
  | opt (p : Pat)
  | group (idx : Nat) (p : Pat)

/-- Capture-group environment: most recent binding first. -/
abbrev Caps := List (Nat × List Char)

/-- Strip a case-insensitive literal from the front of the input. -/
def stripCI : List Char → List Char → Option (List Char)
  | [], s => some s
  | _ :: _, [] => none
  | a :: as, b :: bs => if a.toLower = b.toLower then stripCI as bs else none

/-- All ways `p` can match a prefix of `s`, as (remaining suffix,
captures), in backtracking priority order. -/
def matchAll : Pat → List Char → Caps → List (List Char × Caps)
  | .eps, s, caps => [(s, caps)]
  | .cls f, s, caps =>
    match s with
    | [] => []
    | c :: rest => if f c then [(rest, caps)] else []
  | .lit cs, s, caps =>
    match stripCI cs s with
    | some rest => [(rest, caps)]
    | none => []
  | .seq p q, s, caps => (matchAll p s caps).flatMap (fun r => matchAll q r.1 r.2)
  | .alt p q, s, caps => matchAll p s caps ++ matchAll q s caps
  | .star f, s, caps =>
    let run := s.takeWhile f
    (List.range (run.length + 1)).map (fun i => (s.drop (run.length - i), caps))
  | .plus f, s, caps =>
    let run := s.takeWhile f
    (List.range run.length).map (fun i => (s.drop (run.length - i), caps))
  | .opt p, s, caps => matchAll p s caps ++ [(s, caps)]
  | .group n p, s, caps =>
    (matchAll p s caps).map (fun r => (r.1, (n, s.take (s.length - r.1.length)) :: r.2))

/-- Look up a capture group (None when the group did not participate). -/
def capGet (caps : Caps) (n : Nat) : Option (List Char) :=
  match caps.find? (fun kv => kv.1 == n) with
  | some kv => some kv.2
  | none => none

/-- `re.finditer`: scan left to right, take the first (highest-priority)
match at the leftmost position where one exists, continue after it.
Fuel is the remaining input length plus one; every step consumes at
least one character. Returns (matched text, captures) pairs. -/
def findIterAux (p : Pat) : Nat → List Char → List (List Char × Caps)
  | 0, _ => []
  | fuel + 1, s =>
    match matchAll p s [] with
    | (rest, caps) :: _ =>
      let m := s.take (s.length - rest.length)
      if m.isEmpty then
        match s with
        | [] => [(m, caps)]
        | _ :: t => (m, caps) :: findIterAux p fuel t
      else
        (m, caps) :: findIterAux p fuel rest
    | [] =>
      match s with
      | [] => []
      | _ :: t => findIterAux p fuel t

def pyFindIter (p : Pat) (s : String) : List (List Char × Caps) :=
  findIterAux p (s.length + 1) s.data

/-! ### The shopping-list parser (`ai_shopping_parser.py`) -/

/-- `ParsedItem` (pydantic model, ai_shopping_parser.py:20-26). -/
structure ParsedItem where
  name : String
  quantity : Option ℚ := some 1
  unit : Option String := none
  category : String
  confidence : ℚ
  raw_text : String
deriving DecidableEq, Repr

/-- Freezer keywords of `_infer_category` (ai_shopping_parser.py:189-192). -/
def freezer_keywords : List String :=
  ["frozen", "ice cream", "chicken breast", "ground beef",
   "fish", "salmon", "shrimp", "french fries", "pizza"]

/-- Fridge keywords of `_infer_category` (ai_shopping_parser.py:196-199). -/
def fridge_keywords : List String :=
  ["milk", "yogurt", "cheese", "eggs", "butter", "lettuce",
   "carrots", "fresh", "produce", "deli", "meat"]

/-- `any(word in name_lower for word in kws)`. -/
def kwHit (kws : List String) (item_name : String) : Bool :=
  kws.any (fun kw => chInfix kw.data (pyLower item_name).data)

/-- `ShoppingListParser._infer_category`. -/
def infer_category (item_name : String) : String :=
  if kwHit freezer_keywords item_name then "freezer"
  else if kwHit fridge_keywords item_name then "fridge"
  else "pantry"

/-- Character class `[A-Za-z\s]`. -/
def isAlphaSpace (c : Char) : Bool := c.isAlpha || pyIsSpace c

/-- Right-nested sequence of patterns. -/
def seqL (ps : List Pat) : Pat := ps.foldr .seq .eps

def litS (s : String) : Pat := .lit s.data

/-- Ordered alternation of a nonempty pattern list. -/
def altL : List Pat → Pat
  | [] => .cls (fun _ => false)
  | [p] => p
  | p :: ps => .alt p (altL ps)

/-- A literal with an optional trailing `s`, e.g. `lbs?`. -/
def optS (base : String) : Pat := .seq (litS base) (.opt (litS "s"))

/-- `lbs?|pounds?|oz|ounces?|ct|count|each` (unit group of pattern 1). -/
def unitsAlt1 : Pat :=
  altL [optS "lb", optS "pound", litS "oz", optS "ounce",
        litS "ct", litS "count", litS "each"]

/-- `lbs?|pounds?|oz|ounces?|ct|count` (unit group of pattern 2). -/
def unitsAlt2 : Pat :=
  altL [optS "lb", optS "pound", litS "oz", optS "ounce",
        litS "ct", litS "count"]

/-- The food-name keywords shared by both fallback patterns. -/
def food_keywords : List String :=
  ["chicken", "beef", "pork", "fish", "salmon", "bread", "milk", "eggs",
   "cheese", "yogurt", "butter", "apples", "bananas", "carrots", "onions",
   "potatoes", "rice", "pasta", "cereal"]

def kwAlt : Pat := altL (food_keywords.map litS)

/-- `\d+\.?\d*`. -/
def numPat : Pat := seqL [.plus Char.isDigit, .opt (litS "."), .star Char.isDigit]

/-- First fallback pattern (ai_shopping_parser.py:153):
`(\d+\.?\d*)\s*(lbs?|pounds?|oz|ounces?|ct|count|each)?\s+([A-Za-z\s]+(?:kw...))`. -/
def food_pattern1 : Pat :=
  seqL [.group 1 numPat, .star pyIsSpace, .opt (.group 2 unitsAlt1),
        .plus pyIsSpace, .group 3 (.seq (.plus isAlphaSpace) kwAlt)]

/-- Second fallback pattern (ai_shopping_parser.py:154):
`([A-Za-z\s]+(?:kw...))\s+(\d+\.?\d*)\s*(lbs?|pounds?|oz|ounces?|ct|count)?`. -/
def food_pattern2 : Pat :=
  seqL [.group 1 (.seq (.plus isAlphaSpace) kwAlt), .plus pyIsSpace,
        .group 2 numPat, .star pyIsSpace, .opt (.group 3 unitsAlt2)]

/-- Body of the match loop of `_fallback_parse`
(ai_shopping_parser.py:159-180): branch on whether the first group is
numeric, extract name/quantity/unit accordingly, build a `ParsedItem`
with confidence 0.6, category inferred from the (un-titled) name, and
the whole matched text as `raw_text`. -/
def mkFallbackItem (m : List Char × Caps) : ParsedItem :=
  let g1 := capGet m.2 1
  let g2 := capGet m.2 2
  let g3 := capGet m.2 3
  let raw : String := ⟨m.1⟩
  if pyIsDigitStr (removeDots (g1.getD [])) then
    let quantity : ℚ := if (g1.getD []).isEmpty then 1 else pyFloat ⟨g1.getD []⟩
    let unitOpt : Option String := g2.map (fun l => (⟨l⟩ : String))
    let name : String := pyStrip ⟨g3.getD []⟩
    { name := pyTitle name, quantity := some quantity, unit := unitOpt,
      category := infer_category name, confidence := mkRat 3 5, raw_text := raw }
  else
    let name : String := pyStrip ⟨g1.getD []⟩
    let quantity : ℚ := match g2 with
      | some q => if q.isEmpty then 1 else pyFloat ⟨q⟩
      | none => 1
    let unitOpt : Option String := g3.map (fun l => (⟨l⟩ : String))
    { name := pyTitle name, quantity := some quantity, unit := unitOpt,
      category := infer_category name, confidence := mkRat 3 5, raw_text := raw }

/-- `ShoppingListParser._fallback_parse`: run both patterns over the
content, build items in order, cap at 20. -/
def fallback_parse (content : String) : List ParsedItem :=
  ((pyFindIter food_pattern1 content).map mkFallbackItem
    ++ (pyFindIter food_pattern2 content).map mkFallbackItem).take 20

/-- One item of `ShoppingListParser.validate_items`: drop empty or
too-short names, strip+title the name, coerce truthy non-positive
quantities to 1 (Python `if item.quantity and item.quantity <= 0`),
clamp confidence into [0,1]. -/
def validateOne (it : ParsedItem) : Option ParsedItem :=
  if it.name = "" ∨ (pyStrip it.name).length < 2 then none
  else
    some { it with
      name := pyTitle (pyStrip it.name),
      quantity := match it.quantity with
        | some q => if q ≠ 0 ∧ q ≤ 0 then some 1 else some q
        | none => none,
      confidence := max 0 (min 1 it.confidence) }

/-- `ShoppingListParser.validate_items`. -/
def validate_items (items : List ParsedItem) : List ParsedItem :=
  items.filterMap validateOne

/-- The external-model collaborator: `none` = `GEMINI_API_KEY` not
configured (`self.model is None`); `some (.error _)` = the
`generate_content` call raised; `some (.ok items)` = the call returned
and its JSON decoded to `items`. -/
abbrev AIModel := Option (Except Unit (List ParsedItem))

/-- `ShoppingListParser.parse_shopping_content`
(ai_shopping_parser.py:38-66): with no model configured it logs an error
and returns `[]` (no fallback); only an exception from the external call
reaches the `except` branch that falls back to `_fallback_parse`. -/
def parse_shopping_content (model : AIModel) (content : String)
    (source_type : String) : List ParsedItem :=
  match model with
  | none => []
  | some (.error _) => fallback_parse content
  | some (.ok items) => items

deriving instance DecidableEq for Except

/-! ### Data model (`models.py`)

Rows carry the columns the claims touch; unused columns
(timestamps, verification tokens, barcodes, ...) are omitted.
`models.Item` has no `tags` column — `schemas.ItemCreate.tags` (and
`custom_expiration_days`, `emoji`, `date_added`) have no corresponding
column, a schema/model mismatch recorded with claims C7 and C8. -/

structure User where
  id : Nat
  email : String
deriving DecidableEq, Repr

structure Household where
  id : Nat
  name : String
  description : Option String := none
  invite_code : String
  owner_id : Nat
deriving DecidableEq, Repr

structure Location where
  id : Nat
  name : String
  location_type : String
  temperature_range : Option String := none
  icon : Option String := none
  color : Option String := none
  household_id : Nat
deriving DecidableEq, Repr

structure Item where
  id : Nat
  name : String
  description : Option String := none
  quantity : Option ℚ := some 1
  unit : Option String := none
  location_id : Nat
  added_by_user_id : Nat
deriving DecidableEq, Repr

/-- The database: table contents in row order (`.first()` picks the
first row in list order; the `household_members` association table is
the `memberships` relation). -/
structure Db where
  users : List User
  households : List Household
  memberships : List (Nat × Nat)
  locations : List Location
  items : List Item
deriving DecidableEq, Repr

/-- An `HTTPException`: status code and detail string. -/
structure HErr where
  status : Nat
  detail : String
deriving DecidableEq, Repr

/-! ### CRUD layer (`crud.py`) -/

/-- `crud.get_user_by_id`. -/
def get_user_by_id (db : Db) (user_id : Nat) : Option User :=
  db.users.find? (fun u => u.id == user_id)

/-- `crud.get_household_by_id`. -/
def get_household_by_id (db : Db) (household_id : Nat) : Option Household :=
  db.households.find? (fun h => h.id == household_id)

/-- `crud.is_household_member` (crud.py:100-105): false when the
household does not exist; otherwise `user in household.members`, which
requires both a user row and a membership row. -/
def is_household_member (db : Db) (household_id user_id : Nat) : Bool :=
  match get_household_by_id db household_id with
  | none => false
  | some _ =>
    (get_user_by_id db user_id).isSome && db.memberships.contains (household_id, user_id)

/-- `crud.get_location_by_id`. -/
def get_location_by_id (db : Db) (location_id : Nat) : Option Location :=
  db.locations.find? (fun l => l.id == location_id)

/-- `crud.get_item_by_id`. -/
def get_item_by_id (db : Db) (item_id : Nat) : Option Item :=
  db.items.find? (fun i => i.id == item_id)

/-- `crud.get_location_items`. -/
def get_location_items (db : Db) (location_id : Nat) : List Item :=
  db.items.filter (fun i => i.location_id == location_id)

/-- `crud.get_household_locations`. -/
def get_household_locations (db : Db) (household_id : Nat) : List Location :=
  db.locations.filter (fun l => l.household_id == household_id)

/-- `crud.get_user_households` (crud.py:93-95):
`user.household_memberships if user else []`. -/
def get_user_households (db : Db) (user_id : Nat) : List Household :=
  match get_user_by_id db user_id with
  | none => []
  | some _ => db.households.filter (fun h => db.memberships.contains (h.id, user_id))

/-- `crud.get_location_by_name` (crud.py:297-302): first location of the
household whose name contains the pattern, case-insensitively
(`ilike '%name%'`). -/
def get_location_by_name (db : Db) (household_id : Nat) (location_name : String) :
    Option Location :=
  db.locations.find? (fun l =>
    l.household_id == household_id
      && chInfix (pyLower location_name).data (pyLower l.name).data)

/-- Autoincrement ids. -/
def next_household_id (db : Db) : Nat := (db.households.map (fun h => h.id)).foldr max 0 + 1

def next_location_id (db : Db) : Nat := (db.locations.map (fun l => l.id)).foldr max 0 + 1

def next_item_id (db : Db) : Nat := (db.items.map (fun i => i.id)).foldr max 0 + 1

/-- `schemas.HouseholdCreate`. -/
structure HouseholdCreate where
  name : String
  description : Option String := none
deriving DecidableEq, Repr

/-- First transaction of `crud.create_household` (crud.py:55-64): build
the household row (the invite code drawn by `generate_invite_code` is a
parameter, modelling the random draw) and commit it.  After this commit
the household is durably visible with no members and no locations. -/
def create_household_commit1 (db : Db) (household : HouseholdCreate)
    (owner_id : Nat) (invite_code : String) : Household × Db :=
  let h : Household :=
    { id := next_household_id db, name := household.name,
      description := household.description, invite_code := invite_code,
      owner_id := owner_id }
  (h, { db with households := db.households ++ [h] })

/-- Second transaction of `crud.create_household` (crud.py:66-69):
`db_household.members.append(owner); db.commit()`. -/
def create_household_commit2 (db : Db) (h : Household) (owner_id : Nat) : Db :=
  { db with memberships := db.memberships ++ [(h.id, owner_id)] }

/-- The three default locations of `crud.create_household`
(crud.py:72-76): name, type, temperature range, icon, color. -/
def default_location_data : List (String × String × String × String × String) :=
  [("Freezer", "freezer", "frozen", "❄️", "#87CEEB"),
   ("Fridge", "fridge", "cold", "🥛", "#FFE4E1"),
   ("Pantry", "pantry", "room_temp", "🏠", "#F5DEB3")]

/-- Third transaction of `crud.create_household` (crud.py:78-89): add
the three default location rows and commit. -/
def create_household_commit3 (db : Db) (h : Household) : Db :=
  default_location_data.foldl (fun d p =>
    let l : Location :=
      { id := next_location_id d, name := p.1, location_type := p.2.1,
        temperature_range := some p.2.2.1, icon := some p.2.2.2.1,
        color := some p.2.2.2.2, household_id := h.id }
    { d with locations := d.locations ++ [l] }) db

/-- `crud.create_household` (crud.py:54-91), run to completion: three
separate commits in sequence. -/
def create_household (db : Db) (household : HouseholdCreate)
    (owner_id : Nat) (invite_code : String) : Household × Db :=
  let r := create_household_commit1 db household owner_id invite_code
  let db2 := create_household_commit2 r.2 r.1 owner_id
  (r.1, create_household_commit3 db2 r.1)

/-- `crud.leave_household` (crud.py:221-236).  Errors leave the state
unchanged; the returned `Db` is the state after the call. -/
def leave_household (db : Db) (household_id user_id : Nat) :
    Except HErr String × Db :=
  match get_household_by_id db household_id with
  | none => (.error ⟨404, "Household not found"⟩, db)
  | some h =>
    if h.owner_id == user_id then
      (.error ⟨400, "Household owner cannot leave household. Transfer ownership first or delete household."⟩, db)
    else if !is_household_member db household_id user_id then
      (.error ⟨400, "You are not a member of this household"⟩, db)
    else
      (.ok ("Successfully left " ++ h.name),
       { db with memberships := db.memberships.erase (household_id, user_id) })

/-- `crud.delete_location` (crud.py:250-262): refuse when the location
still contains items; otherwise remove the location row. -/
def delete_location (db : Db) (location_id : Nat) : Except HErr String × Db :=
  match get_location_by_id db location_id with
  | none => (.error ⟨404, "Location not found"⟩, db)
  | some _ =>
    if !(get_location_items db location_id).isEmpty then
      (.error ⟨400, "Cannot delete location with items. Move items first."⟩, db)
    else
      (.ok "Location deleted successfully",
       { db with locations := db.locations.eraseP (fun l => l.id == location_id) })

/-- `schemas.ItemCreate`.  Beyond the fields `main.py` sets during
ingestion it carries `tags`, `custom_expiration_days`, `emoji` and
`date_added` (pydantic fills their defaults in, so `item.dict()` always
contains them) — none of which is a `models.Item` column. -/
structure ItemCreate where
  name : String
  description : Option String := none
  quantity : Option ℚ := some 1
  unit : Option String := none
  tags : List String := []
  custom_expiration_days : Option Nat := none
  emoji : Option String := none
  date_added : Option Int := none
deriving DecidableEq, Repr

/-- The exception every `crud.create_item` call raises: the declarative
row constructor rejects the first keyword of `item.dict()` that is not a
`models.Item` attribute, and `tags` is always present (quotes of the
original Python message omitted). -/
def item_create_typeerror : String :=
  "TypeError: tags is an invalid keyword argument for Item"

/-- `crud.create_item` (crud.py:123-132):
`models.Item(**item.dict(), location_id=..., added_by_user_id=...)`.
Because `item.dict()` always carries the non-column keys `tags`,
`custom_expiration_days`, `emoji` and `date_added`, the constructor
raises `TypeError` before the row is built or the session touched, on
every call (the `user_id or 1` fallback and the `db.add`/`commit` of the
source are never reached). -/
def create_item (db : Db) (item : ItemCreate) (location_id user_id : Nat) :
    Except String (Item × Db) :=
  .error item_create_typeerror

/-! ### Authorization middleware (`middleware/auth.py`) -/

/-- `verify_location_access` (middleware/auth.py:16-24): the same
`404 Location not found` whether the location is absent or the caller is
not a member of its household. -/
def verify_location_access (db : Db) (location_id user_id : Nat) :
    Except HErr Location :=
  match get_location_by_id db location_id with
  | none => .error ⟨404, "Location not found"⟩
  | some location =>
    if !is_household_member db location.household_id user_id then
      .error ⟨404, "Location not found"⟩
    else
      .ok location

/-- `verify_item_access` (middleware/auth.py:27-40): the same
`404 Item not found` whether the item is absent, its location is absent,
or the caller is not a member of the owning household. -/
def verify_item_access (db : Db) (item_id user_id : Nat) :
    Except HErr (Item × Location) :=
  match get_item_by_id db item_id with
  | none => .error ⟨404, "Item not found"⟩
  | some item =>
    match get_location_by_id db item.location_id with
    | none => .error ⟨404, "Item not found"⟩
    | some location =>
      if !is_household_member db location.household_id user_id then
        .error ⟨404, "Item not found"⟩
      else
        .ok (item, location)

/-! ### Ingestion endpoint (`main.py` lines 333-483) -/

/-- A `parsing_log` entry: either the success record
`{item_id, parsed_name, confidence, category, raw_text}` or the
per-item failure record `{error, parsed_name, skipped: True}`. -/
inductive LogEntry where
  | success (item_id : Nat) (parsed_name : String) (confidence : ℚ)
      (category : String) (raw_text : String)
  | failure (error : String) (parsed_name : String)
deriving DecidableEq, Repr

/-- The endpoint's success response body. -/
structure IngestResponse where
  message : String
  items_created : Nat
  total_parsed : Nat
  items : List Item
  parsing_log : List LogEntry
  requires_review : Bool
  review_instructions : String
deriving DecidableEq, Repr

/-- Category → canonical location name (main.py:417-421):
`{"freezer": "freezer", "fridge": "refrigerator", "pantry": "pantry"}`
with `.get(..., "pantry")`. -/
def canonical_location_name (category : String) : String :=
  if category == "freezer" then "freezer"
  else if category == "fridge" then "refrigerator"
  else if category == "pantry" then "pantry"
  else "pantry"

/-- The exception raised by the `location is None` branch of the
materialization loop: main.py:431 calls `crud.create_location(db,
location_data)`, but `crud.create_location(db, location, household_id)`
(crud.py:107) requires `household_id` as a third positional parameter,
so the call raises `TypeError` before touching the database. -/
def create_location_arity_error : String :=
  "TypeError: create_location missing required positional argument household_id"

/-- `f"confidence-{int(parsed_item.confidence * 100)}"`: Python `int`
truncates toward zero, which is `Int.tdiv` on the exact value
`confidence.num * 100 / confidence.den`. -/
def confidence_tag (confidence : ℚ) : String :=
  "confidence-" ++ toString (Int.tdiv (confidence.num * 100) (Int.ofNat confidence.den))

/-- Tags attached to an AI-generated item (main.py:434-436); the
`source-` tag is added only when `request.source_type` is truthy. -/
def item_tags (confidence : ℚ) (source_type : Option String) : List String :=
  ["ai-generated", confidence_tag confidence] ++
    (match source_type with
     | some s => if s = "" then [] else ["source-" ++ s]
     | none => [])

/-- `request.source_type or "generic"` (the argument passed to
`parse_shopping_content`, main.py:384). -/
def source_or_generic (source_type : Option String) : String :=
  match source_type with
  | some s => if s = "" then "generic" else s
  | none => "generic"

/-- `request.source_type or 'shopping list'`. -/
def source_or_default (source_type : Option String) : String :=
  match source_type with
  | some s => if s = "" then "shopping list" else s
  | none => "shopping list"

/-- One iteration of the materialization loop (main.py:414-470) for one
validated item.  `fault` models an exception injected into the per-item
`try` block before the `crud.create_item` call (e.g. the concurrent
location-creation race the spec mentions); with `none` the iteration
proceeds to `crud.create_item`, which itself always raises (see
`create_item`). -/
def materialize_item (db : Db) (household : Household) (user_id : Nat)
    (source_type : Option String) (pitem : ParsedItem)
    (fault : Option String) : Except String (Item × Db) :=
  match get_location_by_name db household.id
      (canonical_location_name pitem.category) with
  | none => .error create_location_arity_error
  | some location =>
    match fault with
    | some msg => .error msg
    | none =>
      let item_data : ItemCreate :=
        { name := pitem.name, quantity := pitem.quantity, unit := pitem.unit,
          tags := item_tags pitem.confidence source_type,
          description := some ("Auto-imported from " ++ source_or_default source_type) }
      create_item db item_data location.id user_id

/-- The materialization loop (main.py:411-470): each item is tried under
its own `try`; a failure appends an error log entry and continues with
the remaining items.  `oracle i` is the fault injected for the item at
overall index `i` (starting from `idx`). -/
def materialize (db : Db) (household : Household) (user_id : Nat)
    (source_type : Option String) (items : List ParsedItem)
    (oracle : Nat → Option String) (idx : Nat) :
    Db × List Item × List LogEntry :=
  match items with
  | [] => (db, [], [])
  | pitem :: rest =>
    match materialize_item db household user_id source_type pitem (oracle idx) with
    | .ok r =>
      let t := materialize r.2 household user_id source_type rest oracle (idx + 1)
      (t.1, r.1 :: t.2.1,
       .success r.1.id pitem.name pitem.confidence pitem.category pitem.raw_text :: t.2.2)
    | .error msg =>
      let t := materialize db household user_id source_type rest oracle (idx + 1)
      (t.1, t.2.1, .failure msg pitem.name :: t.2.2)

/-- The endpoint tail after parsing (main.py:397-480): validate the
parsed items, reject when none survive, take the caller's first
household, materialize, and build the response.  The raised
`HTTPException`s here are inside the handler's `try`, so `ingest` below
wraps them (`IngestError.wrapped`). -/
def ingest_after_parse (db : Db) (user_id : Nat) (source_type : Option String)
    (parsed_items : List ParsedItem) (oracle : Nat → Option String) :
    Except HErr IngestResponse × Db :=
  let validated := validate_items parsed_items
  if validated.isEmpty then
    (.error ⟨400, "No valid grocery items found in content"⟩, db)
  else
    match get_user_households db user_id with
    | [] => (.error ⟨404, "No households found"⟩, db)
    | household :: _ =>
      let t := materialize db household user_id source_type validated oracle 0
      (.ok { message := "Successfully imported " ++ toString t.2.1.length
                          ++ " items from " ++ source_or_default source_type,
             items_created := t.2.1.length,
             total_parsed := validated.length,
             items := t.2.1,
             parsing_log := t.2.2,
             requires_review := true,
             review_instructions := "Items tagged ai-generated should be reviewed and confirmed or modified" },
       t.1)

/-- Cache key: the md5 fingerprint of `f"{content}{source_type}"` is
modelled by the (content, source_type) pair it fingerprints. -/
abbrev CacheKey := String × Option String

/-- `ai_cache`: an insertion-ordered map (Python dict) from key to
(parse result, timestamp). -/
abbrev Cache := List (CacheKey × (List ParsedItem × Int))

def CACHE_TTL : Int := 300

def cache_find (cache : Cache) (k : CacheKey) : Option (List ParsedItem × Int) :=
  match cache.find? (fun e => e.1 == k) with
  | some e => some e.2
  | none => none

def cache_erase (cache : Cache) (k : CacheKey) : Cache :=
  cache.eraseP (fun e => e.1 == k)

/-- Insert an entry into a timestamp-sorted list, after all entries with
timestamp ≤ its own (so the sort below is stable, like Python's). -/
def cache_insert_sorted (e : CacheKey × (List ParsedItem × Int)) :
    Cache → Cache
  | [] => [e]
  | f :: rest =>
    if e.2.2 < f.2.2 then e :: f :: rest else f :: cache_insert_sorted e rest

/-- Stable sort of the cache by timestamp, as
`sorted(ai_cache.keys(), key=lambda k: ai_cache[k][1])` does. -/
def cache_sort_by_time (cache : Cache) : Cache :=
  cache.foldl (fun acc e => cache_insert_sorted e acc) []

/-- Bulk eviction (main.py:391-395): when the cache holds more than 100
entries, delete the 20 oldest. -/
def evict_oldest (cache : Cache) : Cache :=
  ((cache_sort_by_time cache).take 20).foldl (fun c e => cache_erase c e.1) cache

/-- How an ingestion request fails: `direct` for the two size
validations raised outside the handler's `try` block, `wrapped` for an
`HTTPException` raised inside it — the blanket
`except Exception: raise HTTPException(500, f"Shopping list parsing failed: ...")`
catches those and re-raises them as a 500 (modelled structurally, keeping
the inner error). -/
inductive IngestError where
  | direct (e : HErr)
  | wrapped (e : HErr)
deriving DecidableEq, Repr

structure IngestOut where
  result : Except IngestError IngestResponse
  db : Db
  cache : Cache
  invocations : Nat
deriving Repr

/-- The `/api/ingest-shopping` handler (main.py:333-483).
`invocations` counts external-parser invocations: a `generate_content`
call happens exactly when the cache misses (or the entry expired) and a
model is configured.  Cache mutations made before a late failure
persist, as in the source. -/
def ingest (model : AIModel) (oracle : Nat → Option String) (db : Db)
    (user_id : Nat) (content : String) (source_type : Option String)
    (cache : Cache) (now : Int) : IngestOut :=
  if content.length > 5000 then
    ⟨.error (.direct ⟨400, "Content too large (max 5000 characters). Please break into smaller chunks."⟩),
     db, cache, 0⟩
  else if (pyStrip content).length < 10 then
    ⟨.error (.direct ⟨400, "Content too short (min 10 characters). Please provide actual shopping list content."⟩),
     db, cache, 0⟩
  else
    let key : CacheKey := (content, source_type)
    let r1 : Option (List ParsedItem) × Cache :=
      match cache_find cache key with
      | some c => if now - c.2 < CACHE_TTL then (some c.1, cache)
                  else (none, cache_erase cache key)
      | none => (none, cache)
    let r2 : List ParsedItem × Cache × Nat :=
      match r1.1 with
      | some cached => (cached, r1.2, 0)
      | none =>
        let items := parse_shopping_content model content (source_or_generic source_type)
        let c := r1.2 ++ [(key, (items, now))]
        (items, if c.length > 100 then evict_oldest c else c,
         if model.isSome then 1 else 0)
    let t := ingest_after_parse db user_id source_type r2.1 oracle
    ⟨t.1.mapError .wrapped, t.2, r2.2.1, r2.2.2⟩

/-- Run a sequence of ingestion requests (content, source_type, time),
threading database and cache; returns the final cache and the external
invocation count of each request. -/
def run_ingests (model : AIModel) (oracle : Nat → Option String) (db : Db)
    (user_id : Nat) : List (String × Option String × Int) → Cache →
    Cache × List Nat
  | [], cache => (cache, [])
  | (c, st, t) :: rest, cache =>
    let out := ingest model oracle db user_id c st cache t
    let r := run_ingests model oracle out.db user_id rest out.cache
    (r.1, out.invocations :: r.2)

/-! ### Helper lemmas -/

theorem list_find?_append_none {α} (p : α → Bool) {l₁ : List α} (l₂ : List α)
    (h : ∀ x ∈ l₁, p x = false) : (l₁ ++ l₂).find? p = l₂.find? p := by
  induction l₁ with
  | nil => rfl
  | cons a t ih =>
    have ha : p a = false := h a (List.mem_cons_self a t)
    simp only [List.cons_append, List.find?, ha]
    exact ih (fun x hx => h x (List.mem_cons_of_mem a hx))

theorem list_filter_false {α} (p : α → Bool) {l : List α}
    (h : ∀ x ∈ l, p x = false) : l.filter p = [] := by
  induction l with
  | nil => rfl
  | cons a t ih =>
    have ha : p a = false := h a (List.mem_cons_self a t)
    simp only [List.filter, ha]
    exact ih (fun x hx => h x (List.mem_cons_of_mem a hx))

theorem mem_le_foldr_max : ∀ (l : List Nat) {x : Nat}, x ∈ l → x ≤ l.foldr max 0
  | [], _, hx => by cases hx
  | a :: t, x, hx => by
    rcases List.mem_cons.mp hx with h | h
    · subst h; exact le_max_left _ _
    · exact le_trans (mem_le_foldr_max t h) (le_max_right _ _)

/-! ### Concrete fixtures used by closed theorems and witnesses -/

/-- A database with one user (id 1) owning and belonging to one
household (id 1) that has the three default locations. -/
def demo_db : Db :=
  { users := [⟨1, "owner@example.com"⟩],
    households := [⟨1, "Home", none, "ABCD1234", 1⟩],
    memberships := [(1, 1)],
    locations := [⟨1, "Freezer", "freezer", some "frozen", none, none, 1⟩,
                  ⟨2, "Fridge", "fridge", some "cold", none, none, 1⟩,
                  ⟨3, "Pantry", "pantry", some "room_temp", none, none, 1⟩],
    items := [] }

/-- `demo_db` plus a second user (id 2, a member of no household) and an
item (id 1) stored in location 1. -/
def demo_db_outsider : Db :=
  { demo_db with
    users := demo_db.users ++ [⟨2, "outsider@example.com"⟩],
    items := [⟨1, "Peas", none, some 1, none, 1, 1⟩] }

def no_fault : Nat → Option String := fun _ => none

/-- The end-to-end scenario content of the specification. -/
def c3_content : String := "Chicken Breast 2 lbs\nWhole Milk 1 gallon"

/-- A validated fridge-category item, as the fallback parser would
produce for milk. -/
def fridge_item : ParsedItem :=
  { name := "Whole Milk", quantity := some 1, unit := none,
    category := "fridge", confidence := mkRat 3 5, raw_text := "Whole Milk 1" }

def freezer_item : ParsedItem :=
  { name := "Ice Cream", quantity := some 1, unit := none,
    category := "freezer", confidence := mkRat 4 5, raw_text := "ice cream" }

def pantry_item : ParsedItem :=
  { name := "Pasta", quantity := some 2, unit := none,
    category := "pantry", confidence := mkRat 7 10, raw_text := "pasta 2" }

/-! ### Claim theorems -/

/-- Claim C2: for a user who is not a member of the household owning a
location or an item, `verify_location_access` / `verify_item_access`
yield exactly the `404 Location not found` / `404 Item not found` errors
that a nonexistent resource yields, so an unauthorized caller cannot
distinguish absent from forbidden. -/
theorem claim_C2_access_indistinguishable (db : Db) (user_id location_id item_id : Nat) :
    (get_location_by_id db location_id = none →
      verify_location_access db location_id user_id = .error ⟨404, "Location not found"⟩)
    ∧ (∀ loc, get_location_by_id db location_id = some loc →
        is_household_member db loc.household_id user_id = false →
        verify_location_access db location_id user_id = .error ⟨404, "Location not found"⟩)
    ∧ (get_item_by_id db item_id = none →
      verify_item_access db item_id user_id = .error ⟨404, "Item not found"⟩)
    ∧ (∀ item, get_item_by_id db item_id = some item →
        (∀ loc, get_location_by_id db item.location_id = some loc →
          is_household_member db loc.household_id user_id = false) →
        verify_item_access db item_id user_id = .error ⟨404, "Item not found"⟩) := by
  refine ⟨fun h => ?_, fun loc h hm => ?_, fun h => ?_, fun item h hm => ?_⟩
  · simp [verify_location_access, h]
  · simp [verify_location_access, h, hm]
  · simp [verify_item_access, h]
  · simp only [verify_item_access, h]
    cases hl : get_location_by_id db item.location_id with
    | none => rfl
    | some loc => simp [hm loc hl]

/-- Witness for C2 on `demo_db_outsider`: user 2 is not a member of
household 1; the errors for the existing location 1 / item 1 equal the
errors for the absent location 99 / item 99. -/
theorem claim_C2_witness :
    verify_location_access demo_db_outsider 1 2 = .error ⟨404, "Location not found"⟩
    ∧ verify_location_access demo_db_outsider 99 2 = .error ⟨404, "Location not found"⟩
    ∧ verify_item_access demo_db_outsider 1 2 = .error ⟨404, "Item not found"⟩
    ∧ verify_item_access demo_db_outsider 99 2 = .error ⟨404, "Item not found"⟩ :=
  ⟨(claim_C2_access_indistinguishable demo_db_outsider 2 1 1).2.1
      ⟨1, "Freezer", "freezer", some "frozen", none, none, 1⟩ (by decide) (by decide),
   (claim_C2_access_indistinguishable demo_db_outsider 2 99 99).1 (by decide),
   (claim_C2_access_indistinguishable demo_db_outsider 2 1 1).2.2.2
      ⟨1, "Peas", none, some 1, none, 1, 1⟩ (by decide)
      (fun loc hl => by
        have h1 : get_location_by_id demo_db_outsider 1 =
            some ⟨1, "Freezer", "freezer", some "frozen", none, none, 1⟩ := by decide
        obtain rfl := Option.some.inj (h1.symm.trans hl)
        decide),
   (claim_C2_access_indistinguishable demo_db_outsider 2 99 99).2.2.1 (by decide)⟩

/-- Claim C9: the owner of a household cannot leave it:
`leave_household` fails (HTTP 400, the source's conflict error) and the
database — in particular the membership relation — is unchanged. -/
theorem claim_C9_owner_cannot_leave (db : Db) (household_id user_id : Nat)
    (h : Household)
    (hfind : get_household_by_id db household_id = some h)
    (howner : h.owner_id = user_id) :
    leave_household db household_id user_id =
      (.error ⟨400, "Household owner cannot leave household. Transfer ownership first or delete household."⟩, db) := by
  simp [leave_household, hfind, howner]

/-- Witness for C9: user 1 owns household 1 of `demo_db`. -/
theorem claim_C9_witness :
    leave_household demo_db 1 1 =
      (.error ⟨400, "Household owner cannot leave household. Transfer ownership first or delete household."⟩, demo_db) :=
  claim_C9_owner_cannot_leave demo_db 1 1 ⟨1, "Home", none, "ABCD1234", 1⟩
    (by decide) (by decide)

/-- Claim C10: `delete_location` refuses to delete a location that still
contains items — error, database unchanged — and when it does delete,
the location held no items and the item table is untouched. -/
theorem claim_C10_delete_location_guard (db : Db) (location_id : Nat) :
    ((∃ loc, get_location_by_id db location_id = some loc) →
      get_location_items db location_id ≠ [] →
      delete_location db location_id =
        (.error ⟨400, "Cannot delete location with items. Move items first."⟩, db))
    ∧ (∀ res db2, delete_location db location_id = (.ok res, db2) →
        get_location_items db location_id = []
        ∧ db2.items = db.items
        ∧ db2.locations = db.locations.eraseP (fun l => l.id == location_id)) := by
  constructor
  · rintro ⟨loc, hloc⟩ hne
    have : (get_location_items db location_id).isEmpty = false := by
      cases hitems : get_location_items db location_id with
      | nil => exact absurd hitems hne
      | cons a t => rfl
    simp [delete_location, hloc, this]
  · intro res db2 hok
    unfold delete_location at hok
    cases hloc : get_location_by_id db location_id with
    | none => rw [hloc] at hok; cases hok
    | some loc =>
      rw [hloc] at hok
      cases hitems : (get_location_items db location_id).isEmpty with
      | false => rw [hitems] at hok; cases hok
      | true =>
        rw [hitems] at hok
        simp only [Bool.not_true, Bool.false_eq_true, if_false] at hok
        refine ⟨List.isEmpty_iff.mp hitems, ?_, ?_⟩
        · cases hok; rfl
        · cases hok; rfl

/-- Witness for C10: deleting location 1 of `demo_db_outsider` (which
holds item 1) fails and changes nothing; deleting the empty location 3
of `demo_db` succeeds without touching items. -/
theorem claim_C10_witness :
    delete_location demo_db_outsider 1 =
      (.error ⟨400, "Cannot delete location with items. Move items first."⟩, demo_db_outsider)
    ∧ (delete_location demo_db 3).2.items = demo_db.items :=
  ⟨(claim_C10_delete_location_guard demo_db_outsider 1).1
      ⟨⟨1, "Freezer", "freezer", some "frozen", none, none, 1⟩, by decide⟩ (by decide),
   ((claim_C10_delete_location_guard demo_db 3).2 "Location deleted successfully"
      (delete_location demo_db 3).2 (by decide)).2.1⟩

/-- The field-level effect of a completed `create_household` run. -/
theorem create_household_fields (db : Db) (hc : HouseholdCreate)
    (owner_id : Nat) (code : String) :
    (create_household db hc owner_id code).1 =
      { id := next_household_id db, name := hc.name,
        description := hc.description, invite_code := code, owner_id := owner_id }
    ∧ (create_household db hc owner_id code).2.users = db.users
    ∧ (create_household db hc owner_id code).2.households =
        db.households ++ [(create_household db hc owner_id code).1]
    ∧ (create_household db hc owner_id code).2.memberships =
        db.memberships ++ [((create_household db hc owner_id code).1.id, owner_id)]
    ∧ ∃ i1 i2 i3, (create_household db hc owner_id code).2.locations =
        db.locations ++
          [⟨i1, "Freezer", "freezer", some "frozen", some "❄️", some "#87CEEB",
             (create_household db hc owner_id code).1.id⟩,
           ⟨i2, "Fridge", "fridge", some "cold", some "🥛", some "#FFE4E1",
             (create_household db hc owner_id code).1.id⟩,
           ⟨i3, "Pantry", "pantry", some "room_temp", some "🏠", some "#F5DEB3",
             (create_household db hc owner_id code).1.id⟩] := by
  refine ⟨rfl, rfl, rfl, rfl, ?_⟩
  simp only [create_household, create_household_commit1, create_household_commit2,
    create_household_commit3, default_location_data, List.foldl_cons, List.foldl_nil,
    List.append_assoc, List.singleton_append, List.cons_append, List.nil_append]
  exact ⟨_, _, _, rfl⟩

theorem list_contains_append_singleton {α} [BEq α] [LawfulBEq α] (l : List α) (a : α) :
    (l ++ [a]).contains a = true := by
  induction l with
  | nil => simp
  | cons b t ih => simpa using Or.inr ih

/-- Claim C1: immediately after `create_household` completes, the owner
is a member of the new household and the new household has exactly the
three locations ("Freezer", freezer), ("Fridge", fridge),
("Pantry", pantry).  Hypotheses: the owner exists, and every location
row references an existing household (so the fresh id owns no stray
locations). -/
theorem claim_C1_create_household_defaults (db : Db) (hc : HouseholdCreate)
    (owner_id : Nat) (code : String)
    (hwf : ∀ loc ∈ db.locations, ∃ h ∈ db.households, loc.household_id = h.id)
    (huser : (get_user_by_id db owner_id).isSome = true) :
    is_household_member (create_household db hc owner_id code).2
        (create_household db hc owner_id code).1.id owner_id = true
    ∧ (get_household_locations (create_household db hc owner_id code).2
        (create_household db hc owner_id code).1.id).map
          (fun l => (l.name, l.location_type)) =
      [("Freezer", "freezer"), ("Fridge", "fridge"), ("Pantry", "pantry")] := by
  obtain ⟨hH, hUsers, hHs, hMs, i1, i2, i3, hLocs⟩ :=
    create_household_fields db hc owner_id code
  have hidval : (create_household db hc owner_id code).1.id = next_household_id db := by
    rw [hH]
  have hne : ∀ h ∈ db.households,
      (h.id == (create_household db hc owner_id code).1.id) = false := by
    intro h hmem
    have hle : h.id ≤ (db.households.map (fun h => h.id)).foldr max 0 :=
      mem_le_foldr_max _ (List.mem_map_of_mem _ hmem)
    refine beq_eq_false_iff_ne.mpr ?_
    rw [hidval]
    unfold next_household_id
    omega
  have hfind : get_household_by_id (create_household db hc owner_id code).2
      (create_household db hc owner_id code).1.id =
      some (create_household db hc owner_id code).1 := by
    unfold get_household_by_id
    rw [hHs, list_find?_append_none _ _ hne]
    simp [List.find?]
  constructor
  · simp only [is_household_member, hfind]
    refine Bool.and_eq_true_iff.mpr ⟨?_, ?_⟩
    · simp only [get_user_by_id] at huser ⊢
      rw [hUsers]
      exact huser
    · rw [hMs]
      exact list_contains_append_singleton _ _
  · have hlocs_old : ∀ loc ∈ db.locations,
        (loc.household_id == (create_household db hc owner_id code).1.id) = false := by
      intro loc hmem
      obtain ⟨h, hh, heq⟩ := hwf loc hmem
      rw [heq]
      exact hne h hh
    unfold get_household_locations
    rw [hLocs, List.filter_append, list_filter_false _ hlocs_old]
    simp [List.filter]

/-- Witness for C1: creating "Beach House" for user 1 on `demo_db`. -/
theorem claim_C1_witness :
    is_household_member (create_household demo_db ⟨"Beach House", none⟩ 1 "QQQQ1111").2
        (create_household demo_db ⟨"Beach House", none⟩ 1 "QQQQ1111").1.id 1 = true
    ∧ (get_household_locations (create_household demo_db ⟨"Beach House", none⟩ 1 "QQQQ1111").2
        (create_household demo_db ⟨"Beach House", none⟩ 1 "QQQQ1111").1.id).map
          (fun l => (l.name, l.location_type)) =
      [("Freezer", "freezer"), ("Fridge", "fridge"), ("Pantry", "pantry")] :=
  claim_C1_create_household_defaults demo_db ⟨"Beach House", none⟩ 1 "QQQQ1111"
    (by decide) (by decide)

/-- Claim C5 (code_bug): `create_household` is not one logical
transaction.  The first commit (crud.py:63) durably persists the
household; in the state committed there — observable if the process or a
later statement fails before the second commit (crud.py:69) — the
household exists, its owner is not a member, and it has no locations. -/
theorem claim_C5_partial_commit_observable :
    get_household_by_id (create_household_commit1 demo_db ⟨"Second Home", none⟩ 1 "ZZZZ9999").2
        (create_household_commit1 demo_db ⟨"Second Home", none⟩ 1 "ZZZZ9999").1.id =
      some (create_household_commit1 demo_db ⟨"Second Home", none⟩ 1 "ZZZZ9999").1
    ∧ is_household_member
        (create_household_commit1 demo_db ⟨"Second Home", none⟩ 1 "ZZZZ9999").2
        (create_household_commit1 demo_db ⟨"Second Home", none⟩ 1 "ZZZZ9999").1.id 1 = false
    ∧ get_household_locations
        (create_household_commit1 demo_db ⟨"Second Home", none⟩ 1 "ZZZZ9999").2
        (create_household_commit1 demo_db ⟨"Second Home", none⟩ 1 "ZZZZ9999").1.id = [] := by
  decide

/-- Claim C7 (code_bug): materializing a validated fridge item under a
household with the default locations creates nothing.  The category maps
to "refrigerator", which matches no default location name ("Fridge" does
not contain "refrigerator"), so the loop takes the create branch — whose
`crud.create_location(db, location_data)` call (main.py:431) omits the
required `household_id` argument and raises `TypeError` — and the item
is skipped with an error log entry instead of being created and
tagged. -/
theorem claim_C7_materialization_broken :
    get_location_by_name demo_db 1 (canonical_location_name "fridge") = none
    ∧ ingest_after_parse demo_db 1 (some "generic") [fridge_item] no_fault =
      (.ok { message := "Successfully imported 0 items from generic",
             items_created := 0, total_parsed := 1, items := [],
             parsing_log := [.failure create_location_arity_error "Whole Milk"],
             requires_review := true,
             review_instructions := "Items tagged ai-generated should be reviewed and confirmed or modified" },
       demo_db) := by
  decide

/-- Claim C3, counterexample: with no external parser configured, the
end-to-end scenario content yields no fallback items at all —
`parse_shopping_content` returns `[]`, validation finds nothing, and the
request fails (the inner 400 "No valid grocery items found in content"
is re-raised as a 500 by the handler's catch-all) with nothing
persisted, instead of reporting `items_created == 2`. -/
theorem claim_C3_counterexample :
    (ingest none no_fault demo_db 1 c3_content (some "generic") [] 0).result =
      .error (.wrapped ⟨400, "No valid grocery items found in content"⟩)
    ∧ (ingest none no_fault demo_db 1 c3_content (some "generic") [] 0).db = demo_db
    ∧ (ingest none no_fault demo_db 1 c3_content (some "generic") [] 0).invocations = 0 := by
  decide

/-- Claim C3 as amended: the pipeline falls back to the rule-based
parser only when the external call raises; with no external parser
configured it parses nothing and the ingestion request fails with the
"No valid grocery items" error rather than producing fallback items.
Moreover, on the scenario content even the fallback parser would return
two items both categorized `fridge` (named "Whole Milk" and
"Lbs\nWhole Milk"), not a freezer chicken-breast item and a fridge milk
item. -/
theorem claim_C3_amended_fallback_only_on_exception :
    (∀ content source_type, parse_shopping_content none content source_type = [])
    ∧ (∀ content source_type e,
        parse_shopping_content (some (.error e)) content source_type =
          fallback_parse content)
    ∧ (fallback_parse c3_content).map (fun it => (it.name, it.category)) =
        [("Whole Milk", "fridge"), ("Lbs\nWhole Milk", "fridge")]
    ∧ (ingest none no_fault demo_db 1 c3_content (some "generic") [] 0).result =
        .error (.wrapped ⟨400, "No valid grocery items found in content"⟩) :=
  ⟨fun _ _ => rfl, fun _ _ _ => rfl, by decide, by decide⟩

/-- Distinct well-formed filler contents used to grow the cache. -/
def filler_content (i : Nat) : String := toString i ++ " filler content"

/-- A request trace: request "list A with some milk" at t = 0, then 100
distinct filler requests at t = 1..100, then the identical request again
at t = 200 (within the 300-second TTL of the first). -/
def c4_requests : List (String × Option String × Int) :=
  ("list A with some milk", none, 0)
    :: (List.range 100).map (fun i => (filler_content (i + 1), none, ((i : Int) + 1)))
    ++ [("list A with some milk", none, 200)]

/-- Claim C4, counterexample: the final request of `c4_requests` has the
same (content, source_type) as the first and arrives 200 s after it —
inside the 5-minute TTL — yet performs one external-parser invocation,
not zero: the 100 distinct requests in between pushed the cache over its
100-entry bound and the bulk eviction removed the entry. -/
theorem claim_C4_counterexample :
    (run_ingests (some (.ok [])) no_fault ⟨[], [], [], [], []⟩ 1 c4_requests []).2.getLast?
      = some 1
    ∧ ((200 : Int) - 0 < CACHE_TTL) := by
  constructor
  · decide
  · decide

/-- On a cache miss with valid content and no eviction (at most 99
entries), `ingest` appends the parse result under the request's key and
invokes the external parser exactly when a model is configured. -/
theorem ingest_miss_cache (model : AIModel) (oracle : Nat → Option String)
    (db : Db) (user_id : Nat) (content : String) (source_type : Option String)
    (cache : Cache) (now : Int)
    (hlong : ¬ content.length > 5000)
    (hshort : ¬ (pyStrip content).length < 10)
    (habsent : cache_find cache (content, source_type) = none)
    (hsize : cache.length ≤ 99) :
    (ingest model oracle db user_id content source_type cache now).cache =
      cache ++ [((content, source_type),
        (parse_shopping_content model content (source_or_generic source_type), now))]
    ∧ (ingest model oracle db user_id content source_type cache now).invocations =
        (if model.isSome then 1 else 0) := by
  unfold ingest
  rw [if_neg hlong, if_neg hshort]
  have hlen : ¬ (cache.length + 1 > 100) := by omega
  simp [habsent, List.length_append, hlen]

/-- On a fresh cache hit, `ingest` performs no external invocation. -/
theorem ingest_hit_invocations (model : AIModel) (oracle : Nat → Option String)
    (db : Db) (user_id : Nat) (content : String) (source_type : Option String)
    (cache : Cache) (now : Int) (r : List ParsedItem) (t0 : Int)
    (hlong : ¬ content.length > 5000)
    (hshort : ¬ (pyStrip content).length < 10)
    (hfound : cache_find cache (content, source_type) = some (r, t0))
    (hfresh : now - t0 < CACHE_TTL) :
    (ingest model oracle db user_id content source_type cache now).invocations = 0 := by
  unfold ingest
  rw [if_neg hlong, if_neg hshort]
  simp [hfound, hfresh]

/-- On an expired cache hit, `ingest` deletes the entry and re-invokes
the configured external parser exactly once. -/
theorem ingest_expired_invocations (model : AIModel) (oracle : Nat → Option String)
    (db : Db) (user_id : Nat) (content : String) (source_type : Option String)
    (cache : Cache) (now : Int) (r : List ParsedItem) (t0 : Int)
    (hlong : ¬ content.length > 5000)
    (hshort : ¬ (pyStrip content).length < 10)
    (hfound : cache_find cache (content, source_type) = some (r, t0))
    (hstale : ¬ now - t0 < CACHE_TTL)
    (hm : model.isSome = true) :
    (ingest model oracle db user_id content source_type cache now).invocations = 1 := by
  unfold ingest
  rw [if_neg hlong, if_neg hshort]
  simp [hfound, hstale, hm]

/-- Looking up a key just appended to a cache it was absent from. -/
theorem cache_find_append_self (cache : Cache) (k : CacheKey)
    (v : List ParsedItem × Int)
    (habsent : cache_find cache k = none) :
    cache_find (cache ++ [(k, v)]) k = some v := by
  unfold cache_find at habsent ⊢
  have hnone : cache.find? (fun e => e.1 == k) = none := by
    cases h : cache.find? (fun e => e.1 == k) with
    | none => rfl
    | some e => rw [h] at habsent; cases habsent
  have hfalse : ∀ e ∈ cache, ((fun e => e.1 == k) e) = false := by
    intro e he
    have := List.find?_eq_none.mp hnone e he
    simpa using this
  rw [list_find?_append_none _ _ hfalse]
  simp [List.find?]

/-- Claim C4 as amended: for two identical (content, source_type)
requests with no other requests in between (so no eviction can touch the
entry: the cache holds at most 99 entries and does not contain the key),
with a configured external parser and valid content, the second request
performs zero external invocations when it arrives within the TTL of the
first, and exactly one when it arrives at or after TTL expiry. -/
theorem claim_C4_amended_ttl_no_eviction (model : AIModel)
    (m : Except Unit (List ParsedItem)) (oracle : Nat → Option String)
    (db : Db) (user_id : Nat) (content : String) (source_type : Option String)
    (cache : Cache) (t1 t2 : Int)
    (hm : model = some m)
    (hlong : ¬ content.length > 5000)
    (hshort : ¬ (pyStrip content).length < 10)
    (habsent : cache_find cache (content, source_type) = none)
    (hsize : cache.length ≤ 99) :
    (ingest model oracle
        (ingest model oracle db user_id content source_type cache t1).db
        user_id content source_type
        (ingest model oracle db user_id content source_type cache t1).cache
        t2).invocations
      = if t2 - t1 < CACHE_TTL then 0 else 1 := by
  obtain ⟨hc1, _⟩ :=
    ingest_miss_cache model oracle db user_id content source_type cache t1
      hlong hshort habsent hsize
  have hfound :
      cache_find (ingest model oracle db user_id content source_type cache t1).cache
        (content, source_type) =
      some (parse_shopping_content model content (source_or_generic source_type), t1) := by
    rw [hc1]
    exact cache_find_append_self _ _ _ habsent
  by_cases hfresh : t2 - t1 < CACHE_TTL
  · rw [if_pos hfresh]
    exact ingest_hit_invocations model oracle _ user_id content source_type _ t2 _ t1
      hlong hshort hfound hfresh
  · rw [if_neg hfresh]
    refine ingest_expired_invocations model oracle _ user_id content source_type _ t2 _ t1
      hlong hshort hfound hfresh ?_
    rw [hm]
    rfl

/-- Witness for the amended C4: a fresh request at t = 0 and the
identical request at t = 400 (after TTL expiry) with an empty starting
cache — the second request performs exactly one new invocation. -/
theorem claim_C4_amended_witness :
    (ingest (some (.ok [])) no_fault
        (ingest (some (.ok [])) no_fault ⟨[], [], [], [], []⟩ 1
          "abcdefghij" none [] 0).db
        1 "abcdefghij" none
        (ingest (some (.ok [])) no_fault ⟨[], [], [], [], []⟩ 1
          "abcdefghij" none [] 0).cache
        400).invocations = 1 := by
  have h := claim_C4_amended_ttl_no_eviction (some (.ok [])) (.ok []) no_fault
    ⟨[], [], [], [], []⟩ 1 "abcdefghij" none [] 0 400
    rfl (by decide) (by decide) (by decide) (by decide)
  simpa using h

/-- Claim C6: the rule-based fallback parser is a pure function of the
content — for any raising external call it is what the pipeline returns,
independent of the source hint — every item it produces carries
confidence exactly 0.6 and a category inferred from its matched name by
the keyword table (freezer keywords first, then fridge keywords, else
pantry), and at most 20 items are returned. -/
theorem claim_C6_fallback_deterministic (content st1 st2 : String) :
    parse_shopping_content (some (.error ())) content st1 = fallback_parse content
    ∧ parse_shopping_content (some (.error ())) content st2 =
        parse_shopping_content (some (.error ())) content st1
    ∧ (fallback_parse content).length ≤ 20
    ∧ (∀ it ∈ fallback_parse content,
        it.confidence = 3/5
        ∧ ∃ raw, it.name = pyTitle raw ∧ it.category = infer_category raw)
    ∧ (∀ s, (kwHit freezer_keywords s = true → infer_category s = "freezer")
        ∧ (kwHit freezer_keywords s = false → kwHit fridge_keywords s = true →
            infer_category s = "fridge")
        ∧ (kwHit freezer_keywords s = false → kwHit fridge_keywords s = false →
            infer_category s = "pantry")) := by
  have h35 : (mkRat 3 5 : ℚ) = 3/5 := by
    rw [Rat.mkRat_eq_div]
    norm_num
  refine ⟨rfl, rfl, ?_, ?_, ?_⟩
  · unfold fallback_parse
    rw [List.length_take]
    exact min_le_left _ _
  · intro it hit
    have hmem : it ∈ (pyFindIter food_pattern1 content).map mkFallbackItem
        ++ (pyFindIter food_pattern2 content).map mkFallbackItem :=
      List.take_subset _ _ hit
    rcases List.mem_append.mp hmem with h | h <;>
      obtain ⟨m, _, rfl⟩ := List.mem_map.mp h <;>
      · unfold mkFallbackItem
        dsimp only
        split
        · exact ⟨h35, _, rfl, rfl⟩
        · exact ⟨h35, _, rfl, rfl⟩
  · intro s
    refine ⟨fun h1 => ?_, fun h1 h2 => ?_, fun h1 h2 => ?_⟩ <;>
      simp [infer_category, h1]
    · simp [h2]
    · simp [h2]

/-- Witness for C6: the fallback item parsed from "2 whole milk", plus
concrete rows of the keyword table. -/
theorem claim_C6_witness :
    ((⟨"Whole Milk", some (mkRat 2 1), none, "fridge", mkRat 3 5,
        "2 whole milk"⟩ : ParsedItem) ∈ fallback_parse "2 whole milk")
    ∧ (⟨"Whole Milk", some (mkRat 2 1), none, "fridge", mkRat 3 5,
        "2 whole milk"⟩ : ParsedItem).confidence = 3/5
    ∧ infer_category "frozen peas" = "freezer"
    ∧ infer_category "skim milk" = "fridge"
    ∧ infer_category "canned soup" = "pantry" := by
  have h := claim_C6_fallback_deterministic "2 whole milk" "a" "b"
  refine ⟨by decide, (h.2.2.2.1 _ (by decide)).1, ?_, ?_, ?_⟩
  · exact (h.2.2.2.2 "frozen peas").1 (by decide)
  · exact (h.2.2.2.2 "skim milk").2.1 (by decide) (by decide)
  · exact (h.2.2.2.2 "canned soup").2.2 (by decide) (by decide)

/-- A fault oracle that fails exactly at overall index `i`. -/
def single_fault (i : Nat) (msg : String) : Nat → Option String :=
  fun j => if j = i then some msg else none


/-- Every iteration of the materialization loop raises: either the
location lookup fails (the broken `create_location` call), or the
injected fault fires, or `crud.create_item` itself raises its
unconditional `TypeError`. -/
theorem materialize_item_never_ok (db : Db) (hh : Household) (uid : Nat)
    (st : Option String) (pitem : ParsedItem) (fault : Option String) :
    ∃ msg, materialize_item db hh uid st pitem fault = .error msg := by
  unfold materialize_item
  cases get_location_by_name db hh.id (canonical_location_name pitem.category) with
  | none => exact ⟨_, rfl⟩
  | some loc =>
    cases fault with
    | some m => exact ⟨m, rfl⟩
    | none => exact ⟨item_create_typeerror, rfl⟩

/-- The materialization loop creates no item for any input: every
iteration lands in the except branch, the database is untouched, and one
log entry is appended per item (the loop does continue past
failures). -/
theorem materialize_creates_nothing :
    ∀ (items : List ParsedItem) (db : Db) (hh : Household) (uid : Nat)
      (st : Option String) (oracle : Nat → Option String) (idx : Nat),
      (materialize db hh uid st items oracle idx).2.1 = []
      ∧ (materialize db hh uid st items oracle idx).1 = db
      ∧ (materialize db hh uid st items oracle idx).2.2.length = items.length
  | [], db, hh, uid, st, oracle, idx => ⟨rfl, rfl, rfl⟩
  | pitem :: rest, db, hh, uid, st, oracle, idx => by
    obtain ⟨msg, hmsg⟩ := materialize_item_never_ok db hh uid st pitem (oracle idx)
    have ih := materialize_creates_nothing rest db hh uid st oracle (idx + 1)
    simp only [materialize, hmsg]
    exact ⟨ih.1, ih.2.1, by simp [ih.2.2]⟩

/-- Claim C8 (code_bug): the per-item `try`/`except` of main.py:414-470
does continue past a failed item, the request still succeeds, and every
failed item appears in the log with an error marker — but "the remaining
items are still created" can never hold, because `crud.create_item`
raises `TypeError` on every call (`schemas.ItemCreate.dict()` always
carries `tags` and other keys that are no `models.Item` column).  First
conjunct: for any input, materialization creates nothing, leaves the
database unchanged and logs one entry per item.  Second conjunct, the
failing input evaluated: two validated items under `demo_db` with a
fault injected for the first — the second is not created either; the
response is `.ok` with `items_created = 0` and both items logged as
failures. -/
theorem claim_C8_no_items_survive :
    (∀ (db : Db) (hh : Household) (uid : Nat) (st : Option String)
       (items : List ParsedItem) (oracle : Nat → Option String) (idx : Nat),
       (materialize db hh uid st items oracle idx).2.1 = []
       ∧ (materialize db hh uid st items oracle idx).1 = db
       ∧ (materialize db hh uid st items oracle idx).2.2.length = items.length)
    ∧ ingest_after_parse demo_db 1 (some "generic") [freezer_item, pantry_item]
        (single_fault 0 "simulated database failure")
      = (.ok { message := "Successfully imported 0 items from generic",
               items_created := 0, total_parsed := 2, items := [],
               parsing_log := [.failure "simulated database failure" "Ice Cream",
                               .failure item_create_typeerror "Pasta"],
               requires_review := true,
               review_instructions := "Items tagged ai-generated should be reviewed and confirmed or modified" },
         demo_db) :=
  ⟨fun db hh uid st items oracle idx =>
     materialize_creates_nothing items db hh uid st oracle idx,
   by decide⟩
